import Mathlib

/-!
Shallow embedding of the stock-mutation / transaction-recording core of the
inventory_app repository (src/InventoryManager.js, src/server.js), written
against the store interface the spec assumes (plain tables with business-key
uniqueness).

JavaScript dynamic values are modelled by an inductive of the shapes the core
actually handles (numbers, strings, undefined); numbers are modelled as Int
(every quantity, price and stock in the core is integral in the spec's
scenarios).  JS truthiness and the typeof operator are modelled exactly as the
source relies on them, because validateInput branches on them.
-/

namespace Inventory

/-- A JavaScript value as the InventoryManager core sees it. -/
inductive JSValue
  | num (n : Int)
  | str (s : String)
  | undefined
deriving DecidableEq, Repr

/-- JS truthiness for the modelled values: 0, the empty string and undefined
are falsy, everything else truthy (source: the checks of validateInput). -/
def truthy : JSValue → Bool
  | .num n => n != 0
  | .str s => s != ""
  | .undefined => false

/-- The JS typeof operator on the modelled values. -/
def jsTypeof : JSValue → String
  | .num _ => "number"
  | .str _ => "string"
  | .undefined => "undefined"

/-- JS numeric comparison v < m as used by the min rule of validateInput.
Non-numbers compare false (undefined coerces to NaN); in every rule of the
source a type check to "number" precedes the min check, so only numbers
reach this comparison. -/
def jsLt : JSValue → Int → Bool
  | .num n, m => n < m
  | _, _ => false

/-- String coercion; in the source a validated field is already a string when
it is used as one. -/
def jsStr : JSValue → String
  | .str s => s
  | .num n => toString n
  | .undefined => "undefined"

/-- Numeric extraction; in the source a validated field is already a number
when it is used as one. -/
def jsInt : JSValue → Int
  | .num n => n
  | .str _ => 0
  | .undefined => 0

/-- One field rule of validateInput: required flag, expected typeof string,
minimum numeric value (src/InventoryManager.js lines 46-58). -/
structure Rule where
  required : Bool := false
  type : Option String := none
  min : Option Int := none
deriving DecidableEq, Repr

/-- Errors of the core: InventoryNotificationError carries a message and a
type tag; db carries the raw mysql error code of a failed statement (the
source rethrows these unwrapped unless it explicitly maps them); observer is
an exception raised by a registered event listener during dispatch. -/
inductive Err
  | inv (message : String) (etype : String)
  | db (code : String)
  | observer (message : String)
deriving DecidableEq, Repr

/-- validateField models one iteration of the loop in validateInput
(src/InventoryManager.js lines 47-57).  The three ifs are translated exactly,
including the two falsy-value quirks of the source: a required field holding
a falsy value (such as the number 0) is reported as missing, and a min rule
whose minimum is the (falsy) number 0 is never checked. -/
def validateField (field : String) (v : JSValue) (r : Rule) : Except Err Unit :=
  if r.required && !truthy v then
    .error (.inv (field ++ " is required") "VALIDATION_ERROR")
  else if (match r.type with
           | some t => (t != "") && (jsTypeof v != t)
           | none => false) then
    .error (.inv (field ++ " must be of type " ++ r.type.getD "") "VALIDATION_ERROR")
  else if (match r.min with
           | some m => (m != 0) && jsLt v m
           | none => false) then
    .error (.inv (field ++ " must be at least " ++ toString (r.min.getD 0)) "VALIDATION_ERROR")
  else
    .ok ()

/-- validateInput (src/InventoryManager.js lines 46-58): check each (field,
value, rule) triple in declaration order, failing on the first violation.
Each call site below lists its triples in the order of its rule object. -/
def validateInput : List (String × JSValue × Rule) → Except Err Unit
  | [] => .ok ()
  | (f, v, r) :: rest =>
    match validateField f v r with
    | .error e => .error e
    | .ok _ => validateInput rest

/-- A row of the products table, restricted to the columns the core reads and
writes. -/
structure Product where
  product_id : String
  name : String
  price : Int
  stock : Int
  category : String
deriving DecidableEq, Repr

/-- A row of the transactions table, restricted to the columns
createTransaction inserts. -/
structure Txn where
  transaction_id : String
  product_id : String
  quantity : Int
  ttype : String
  customer_id : String
  unit_price : Int
  total_amount : Int
deriving DecidableEq, Repr

/-- Modelled from the spec: the state of the store.  server.js connects to a
database named test_inventory whose setup script is not in the repository
(database.sql builds a different database, inventory_db); per the spec the
store is an external collaborator providing plain tables with business-key
uniqueness, so it is modelled as the two tables the core touches. -/
structure DB where
  products : List Product
  transactions : List Txn
deriving DecidableEq, Repr

/-- SELECT * FROM products WHERE product_id = ? (first matching row). -/
def findProduct (db : DB) (pid : String) : Option Product :=
  db.products.find? (fun p => p.product_id == pid)

/-- UPDATE products SET stock = ?, updated_at = NOW() WHERE product_id = ?. -/
def setStock (db : DB) (pid : String) (newStock : Int) : DB :=
  { db with
    products := db.products.map
      (fun p => if p.product_id == pid then { p with stock := newStock } else p) }

/-- The value returned by a successful updateStock, besides success: true. -/
structure StockResult where
  oldStock : Int
  newStock : Int
deriving DecidableEq, Repr

/-- The payload emitted with the transactionComplete event
(src/InventoryManager.js lines 167-174). -/
structure TxnEvent where
  transactionId : String
  productId : String
  quantity : Int
  ttype : String
  customerId : String
  totalAmount : Int
deriving DecidableEq, Repr

/-- An emitted event: lowStock carries the spread of the product row with
stock replaced by the post-update value; transactionComplete carries the
recorded transaction snapshot. -/
inductive Event
  | lowStock (p : Product)
  | txnComplete (e : TxnEvent)
deriving DecidableEq, Repr

/-- The registered listeners of the two events.  A listener returns none on
normal completion and some message when it raises.  The manager registers one
listener per event in init (handleLowStockNotification and logTransaction),
both of which only log and never raise. -/
structure Listeners where
  lowStock : List (Product → Option String)
  txnComplete : List (TxnEvent → Option String)

/-- Node's EventEmitter dispatch: listeners run synchronously in registration
order, and an exception from one propagates at once to the emit caller
(remaining listeners are not invoked). -/
def dispatch {α : Type} : List (α → Option String) → α → Except Err Unit
  | [], _ => .ok ()
  | l :: rest, payload =>
    match l payload with
    | some m => .error (.observer m)
    | none => dispatch rest payload

/-- The listeners registered by init: handleLowStockNotification and
logTransaction, which only console.log and never raise. -/
def defaultListeners : Listeners :=
  ⟨[fun _ => none], [fun _ => none]⟩

deriving instance DecidableEq for Except

/-- Outcome of a core operation: the store state after the call, the events
emitted during the call, and the returned value or thrown error. -/
structure Outcome (α : Type) where
  db : DB
  events : List Event
  result : Except Err α
deriving DecidableEq

/-- this.lowStockThreshold, set to 10 in the constructor
(src/InventoryManager.js line 17) and never changed. -/
def lowStockThreshold : Int := 10

/-- Tail of updateStock after the new stock value is computed
(src/InventoryManager.js lines 116-123): persist the new stock, emit lowStock
when the post-update value is at or below the threshold, then return
{success, oldStock, newStock}.  The UPDATE precedes the emit, so a raising
listener leaves the stock already written. -/
def applyAndNotify (ls : Listeners) (db : DB) (product : Product)
    (newStock : Int) : Outcome StockResult :=
  if newStock ≤ lowStockThreshold then
    match dispatch ls.lowStock { product with stock := newStock } with
    | .error e =>
      ⟨setStock db product.product_id newStock,
       [.lowStock { product with stock := newStock }], .error e⟩
    | .ok _ =>
      ⟨setStock db product.product_id newStock,
       [.lowStock { product with stock := newStock }],
       .ok ⟨product.stock, newStock⟩⟩
  else
    ⟨setStock db product.product_id newStock, [], .ok ⟨product.stock, newStock⟩⟩

/-- The rule object of updateStock (src/InventoryManager.js lines 89-93),
paired with the validated values in declaration order. -/
def updateStockChecks (productId quantity transactionType : JSValue) :
    List (String × JSValue × Rule) :=
  [("productId", productId, { required := true, type := some "string" }),
   ("quantity", quantity, { required := true, type := some "number", min := some 1 }),
   ("transactionType", transactionType, { required := true, type := some "string" })]

/-- updateStock (src/InventoryManager.js lines 85-127): validate, look up the
product, compute the new stock by transaction type (purchase and restock add,
sale subtracts after the sufficiency check, anything else is rejected),
persist, notify, return {success, oldStock, newStock}. -/
def updateStock (ls : Listeners) (db : DB)
    (productId quantity transactionType : JSValue) : Outcome StockResult :=
  match validateInput (updateStockChecks productId quantity transactionType) with
  | .error e => ⟨db, [], .error e⟩
  | .ok _ =>
    match findProduct db (jsStr productId) with
    | none =>
      ⟨db, [], .error (.inv ("Product with ID " ++ jsStr productId ++ " not found")
        "PRODUCT_NOT_FOUND")⟩
    | some product =>
      let q := jsInt quantity
      let t := jsStr transactionType
      if t = "purchase" ∨ t = "restock" then
        applyAndNotify ls db product (product.stock + q)
      else if t = "sale" then
        if product.stock < q then
          ⟨db, [], .error (.inv ("Insufficient stock. Available: "
            ++ toString product.stock ++ ", Requested: " ++ toString q)
            "INSUFFICIENT_STOCK")⟩
        else
          applyAndNotify ls db product (product.stock - q)
      else
        ⟨db, [], .error (.inv ("Invalid transaction type: " ++ t)
          "INVALID_TRANSACTION_TYPE")⟩

/-- The rule object of addProduct (src/InventoryManager.js lines 64-70). -/
def addProductChecks (productId name price stock category : JSValue) :
    List (String × JSValue × Rule) :=
  [("productId", productId, { required := true, type := some "string" }),
   ("name", name, { required := true, type := some "string" }),
   ("price", price, { required := true, type := some "number", min := some 0 }),
   ("stock", stock, { required := true, type := some "number", min := some 0 }),
   ("category", category, { required := true, type := some "string" })]

/-- addProduct (src/InventoryManager.js lines 60-83): validate, INSERT into
products; a duplicate business key makes the INSERT fail with ER_DUP_ENTRY,
which this operation catches and maps to DUPLICATE_PRODUCT.  The returned
number models result.insertId of the auto-increment id column. -/
def addProduct (db : DB) (productId name price stock category : JSValue) :
    Outcome Nat :=
  match validateInput (addProductChecks productId name price stock category) with
  | .error e => ⟨db, [], .error e⟩
  | .ok _ =>
    if db.products.any (fun p => p.product_id == jsStr productId) then
      ⟨db, [], .error (.inv ("Product with ID " ++ jsStr productId
        ++ " already exists") "DUPLICATE_PRODUCT")⟩
    else
      ⟨{ db with products := db.products
          ++ [⟨jsStr productId, jsStr name, jsInt price, jsInt stock, jsStr category⟩] },
        [], .ok (db.products.length + 1)⟩

/-- Modelled from the spec: INSERT INTO transactions against the runtime
store (not in the repository; the spec assumes business-key uniqueness on
transaction_id).  A duplicate key fails the statement with the raw
ER_DUP_ENTRY error, which createTransaction does not catch or translate. -/
def insertTransaction (db : DB) (t : Txn) : Except Err DB :=
  if db.transactions.any (fun u => u.transaction_id == t.transaction_id) then
    .error (.db "ER_DUP_ENTRY")
  else
    .ok { db with transactions := db.transactions ++ [t] }

/-- The rule object of createTransaction (src/InventoryManager.js lines
133-139). -/
def createTransactionChecks (transactionId productId quantity ttype customerId : JSValue) :
    List (String × JSValue × Rule) :=
  [("transactionId", transactionId, { required := true, type := some "string" }),
   ("productId", productId, { required := true, type := some "string" }),
   ("quantity", quantity, { required := true, type := some "number", min := some 1 }),
   ("type", ttype, { required := true, type := some "string" }),
   ("customerId", customerId, { required := true, type := some "string" })]

/-- Tail of createTransaction after the transaction row has been inserted
(src/InventoryManager.js lines 163-176): u is the outcome of the updateStock
call; when it succeeded, emit transactionComplete and return
{success, totalAmount}; when it threw, the rethrown error leaves the store
as updateStock left it (the already-inserted row included). -/
def finishCreate (ls : Listeners) (u : Outcome StockResult) (ev : TxnEvent)
    (totalAmount : Int) : Outcome Int :=
  match u.result with
  | .error e => ⟨u.db, u.events, .error e⟩
  | .ok _ =>
    match dispatch ls.txnComplete ev with
    | .error e => ⟨u.db, u.events ++ [.txnComplete ev], .error e⟩
    | .ok _ => ⟨u.db, u.events ++ [.txnComplete ev], .ok totalAmount⟩

/-- createTransaction (src/InventoryManager.js lines 129-180): validate, look
up the product, compute totalAmount = product.price * quantity from the
stored price, INSERT the transaction row, then call updateStock, then emit
transactionComplete, then return {success, totalAmount}.  The row is inserted
before the stock update and nothing is rolled back when a later step throws;
the catch block only rethrows. -/
def createTransaction (ls : Listeners) (db : DB)
    (transactionId productId quantity ttype customerId : JSValue) : Outcome Int :=
  match validateInput (createTransactionChecks transactionId productId quantity ttype customerId) with
  | .error e => ⟨db, [], .error e⟩
  | .ok _ =>
    match findProduct db (jsStr productId) with
    | none =>
      ⟨db, [], .error (.inv ("Product with ID " ++ jsStr productId ++ " not found")
        "PRODUCT_NOT_FOUND")⟩
    | some product =>
      match insertTransaction db
          ⟨jsStr transactionId, jsStr productId, jsInt quantity, jsStr ttype,
           jsStr customerId, product.price, product.price * jsInt quantity⟩ with
      | .error e => ⟨db, [], .error e⟩
      | .ok db1 =>
        finishCreate ls (updateStock ls db1 productId quantity ttype)
          ⟨jsStr transactionId, jsStr productId, jsInt quantity, jsStr ttype,
           jsStr customerId, product.price * jsInt quantity⟩
          (product.price * jsInt quantity)

/-- getLowStockProducts (src/InventoryManager.js lines 266-275): the JS
expression threshold || this.lowStockThreshold falls back to the default
whenever the argument is falsy (null, undefined, NaN, or the number 0); none
models an absent or non-numeric argument.  The ORDER BY stock ASC of the
query is dropped: only the selected set is specified. -/
def getLowStockProducts (db : DB) (threshold : Option Int) : List Product :=
  let stockThreshold : Int :=
    match threshold with
    | none => lowStockThreshold
    | some t => if t = 0 then lowStockThreshold else t
  db.products.filter (fun p => p.stock ≤ stockThreshold)

/-- success flag of a result. -/
def resultOk {α : Type} : Except Err α → Bool
  | .ok _ => true
  | .error _ => false

/-- Recognizes an InventoryNotificationError with type DUPLICATE_TRANSACTION
(no code path of the source produces one). -/
def isDupTxnErr {α : Type} : Except Err α → Bool
  | .error (.inv _ "DUPLICATE_TRANSACTION") => true
  | _ => false

/-- One mutating call against the manager, for invariant statements over
operation sequences. -/
inductive Op
  | upd (productId quantity transactionType : JSValue)
  | create (transactionId productId quantity ttype customerId : JSValue)

/-- Run one operation, keeping the resulting store and the success flag. -/
def runOp (ls : Listeners) (db : DB) : Op → DB × Bool
  | .upd a b c =>
    let o := updateStock ls db a b c
    (o.db, resultOk o.result)
  | .create a b c d e =>
    let o := createTransaction ls db a b c d e
    (o.db, resultOk o.result)

/-- Run a sequence of operations; the flag is true when every call returned
success. -/
def runOps (ls : Listeners) (db : DB) : List Op → DB × Bool
  | [] => (db, true)
  | op :: rest =>
    let r := runOp ls db op
    let s := runOps ls r.1 rest
    (s.1, r.2 && s.2)

/-- Every product row has non-negative stock. -/
@[reducible] def DB.nonneg (db : DB) : Prop := ∀ p ∈ db.products, 0 ≤ p.stock

/-- Concrete store for witnesses: one product, price 100, stock 5 (the
spec's scenario product P1). -/
def sampleProduct : Product := ⟨"P1", "Widget", 100, 5, "X"⟩

/-- Store holding sampleProduct and no transactions. -/
def sampleDB : DB := ⟨[sampleProduct], []⟩

/-- Store whose product P1 has stock 2 (the spec's insufficient-stock
scenario). -/
def stock2DB : DB := ⟨[⟨"P1", "Widget", 100, 2, "X"⟩], []⟩

/-- Store already holding a transaction with id T1. -/
def dupTxnDB : DB := ⟨[sampleProduct], [⟨"T1", "P1", 1, "sale", "C1", 100, 100⟩]⟩

/-- Store whose product P1 has stock 9 (purchase-notification scenario). -/
def stock9DB : DB := ⟨[⟨"P1", "Widget", 100, 9, "X"⟩], []⟩

/-- Store whose product P1 has stock 12 (sale-notification scenario). -/
def stock12DB : DB := ⟨[⟨"P1", "Widget", 100, 12, "X"⟩], []⟩

/-- A registration with one lowStock observer that always raises. -/
def throwingListeners : Listeners :=
  ⟨[fun _ => some "observer exploded"], [fun _ => none]⟩

/-- A concrete successful operation sequence for the invariant witness. -/
def sampleOps : List Op :=
  [.create (.str "T1") (.str "P1") (.num 3) (.str "sale") (.str "C1"),
   .upd (.str "P1") (.num 4) (.str "restock")]

theorem validateInput_cons {f : String} {v : JSValue} {r : Rule}
    {rest : List (String × JSValue × Rule)} :
    validateInput ((f, v, r) :: rest) = .ok () ↔
      (validateField f v r = .ok () ∧ validateInput rest = .ok ()) := by
  constructor
  · intro h
    simp only [validateInput] at h
    cases hf : validateField f v r with
    | error e => rw [hf] at h; simp at h
    | ok u => cases u; rw [hf] at h; simp at h; exact ⟨rfl, h⟩
  · rintro ⟨h1, h2⟩
    simp only [validateInput, h1]
    exact h2

theorem validateField_str_intro (f : String) {s : String} (h : s ≠ "") :
    validateField f (.str s) { required := true, type := some "string" } = .ok () := by
  simp [validateField, truthy, jsTypeof, h]

theorem validateField_min1_intro (f : String) {n : Int} (h : 1 ≤ n) :
    validateField f (.num n)
      { required := true, type := some "number", min := some 1 } = .ok () := by
  have h0 : n ≠ 0 := by omega
  have h1 : ¬ n < 1 := by omega
  simp [validateField, truthy, jsTypeof, jsLt, h0, h1]

theorem validateField_min1_elim {f : String} {v : JSValue}
    (h : validateField f v
      { required := true, type := some "number", min := some 1 } = .ok ()) :
    ∃ n : Int, v = .num n ∧ 1 ≤ n := by
  cases v with
  | num n =>
    refine ⟨n, rfl, ?_⟩
    by_contra hn
    rcases (by omega : n = 0 ∨ (n ≠ 0 ∧ n < 1)) with h0 | ⟨h0, h1⟩
    · simp [validateField, truthy, jsTypeof, jsLt, h0] at h
    · simp [validateField, truthy, jsTypeof, jsLt, h0, h1] at h
  | str s =>
    simp only [validateField, truthy, jsTypeof] at h
    split at h <;> simp at h
  | undefined => simp [validateField, truthy] at h

theorem updateStockChecks_ok {pid t : String} {q : Int}
    (hpid : pid ≠ "") (hq : 1 ≤ q) (ht : t ≠ "") :
    validateInput (updateStockChecks (.str pid) (.num q) (.str t)) = .ok () := by
  unfold updateStockChecks
  exact validateInput_cons.mpr ⟨validateField_str_intro _ hpid,
    validateInput_cons.mpr ⟨validateField_min1_intro _ hq,
      validateInput_cons.mpr ⟨validateField_str_intro _ ht, rfl⟩⟩⟩

theorem createTransactionChecks_ok {tid pid t cid : String} {q : Int}
    (htid : tid ≠ "") (hpid : pid ≠ "") (hq : 1 ≤ q) (ht : t ≠ "") (hcid : cid ≠ "") :
    validateInput (createTransactionChecks (.str tid) (.str pid) (.num q)
      (.str t) (.str cid)) = .ok () := by
  unfold createTransactionChecks
  exact validateInput_cons.mpr ⟨validateField_str_intro _ htid,
    validateInput_cons.mpr ⟨validateField_str_intro _ hpid,
      validateInput_cons.mpr ⟨validateField_min1_intro _ hq,
        validateInput_cons.mpr ⟨validateField_str_intro _ ht,
          validateInput_cons.mpr ⟨validateField_str_intro _ hcid, rfl⟩⟩⟩⟩⟩

theorem applyAndNotify_db (ls : Listeners) (db : DB) (p : Product) (ns : Int) :
    (applyAndNotify ls db p ns).db = setStock db p.product_id ns := by
  unfold applyAndNotify
  by_cases h : ns ≤ lowStockThreshold
  · rw [if_pos h]
    cases dispatch ls.lowStock { p with stock := ns } <;> rfl
  · rw [if_neg h]

theorem applyAndNotify_default (db : DB) (p : Product) (ns : Int) :
    applyAndNotify defaultListeners db p ns =
      ⟨setStock db p.product_id ns,
       if ns ≤ lowStockThreshold then [.lowStock { p with stock := ns }] else [],
       .ok ⟨p.stock, ns⟩⟩ := by
  by_cases h : ns ≤ lowStockThreshold <;>
    simp [applyAndNotify, defaultListeners, dispatch, h]

theorem updateStock_eq (ls : Listeners) (db : DB) (pid t : String) (q : Int)
    (product : Product) (hpid : pid ≠ "") (hq : 1 ≤ q) (ht : t ≠ "")
    (hfind : findProduct db pid = some product) :
    updateStock ls db (.str pid) (.num q) (.str t) =
      (if t = "purchase" ∨ t = "restock" then
        applyAndNotify ls db product (product.stock + q)
      else if t = "sale" then
        (if product.stock < q then
          ⟨db, [], .error (.inv ("Insufficient stock. Available: "
            ++ toString product.stock ++ ", Requested: " ++ toString q)
            "INSUFFICIENT_STOCK")⟩
        else applyAndNotify ls db product (product.stock - q))
      else
        ⟨db, [], .error (.inv ("Invalid transaction type: " ++ t)
          "INVALID_TRANSACTION_TYPE")⟩) := by
  unfold updateStock
  rw [updateStockChecks_ok hpid hq ht]
  simp only [jsStr, jsInt]
  rw [hfind]

theorem findProduct_mem {db : DB} {pid : String} {p : Product}
    (h : findProduct db pid = some p) : p ∈ db.products :=
  List.mem_of_find?_eq_some h

theorem findProduct_id {db : DB} {pid : String} {p : Product}
    (h : findProduct db pid = some p) : p.product_id = pid := by
  have := List.find?_some h
  exact eq_of_beq this

theorem find?_map_setStock (pid : String) (v : Int) (l : List Product)
    {p : Product} (h : l.find? (fun x => x.product_id == pid) = some p) :
    (l.map (fun x => if x.product_id == pid then { x with stock := v } else x)).find?
        (fun x => x.product_id == pid) = some { p with stock := v } := by
  induction l with
  | nil => simp at h
  | cons a l ih =>
    by_cases ha : (a.product_id == pid) = true
    · rw [List.find?_cons_of_pos (p := fun x : Product => x.product_id == pid) l ha] at h
      cases h
      simp only [List.map_cons, if_pos ha]
      exact List.find?_cons_of_pos (p := fun x : Product => x.product_id == pid) _
        (by simpa using ha)
    · rw [List.find?_cons_of_neg (p := fun x : Product => x.product_id == pid) l ha] at h
      simp only [List.map_cons, if_neg ha]
      rw [List.find?_cons_of_neg (p := fun x : Product => x.product_id == pid) _ ha]
      exact ih h

theorem findProduct_setStock {db : DB} {pid : String} {p : Product} (v : Int)
    (h : findProduct db pid = some p) :
    findProduct (setStock db pid v) pid = some { p with stock := v } :=
  find?_map_setStock pid v db.products h

theorem setStock_nonneg {db : DB} {pid : String} {v : Int}
    (h : db.nonneg) (hv : 0 ≤ v) : (setStock db pid v).nonneg := by
  intro p hp
  simp only [setStock, List.mem_map] at hp
  obtain ⟨a, ha, rfl⟩ := hp
  by_cases h1 : a.product_id == pid
  · simpa [h1] using hv
  · simpa [h1] using h a ha

theorem updateStock_nonneg (ls : Listeners) (db : DB) (a b c : JSValue)
    (h : db.nonneg) : (updateStock ls db a b c).db.nonneg := by
  unfold updateStock
  split
  · exact h
  · next u hv =>
    obtain ⟨hq1, hrest⟩ := validateInput_cons.mp hv
    obtain ⟨hq2, _⟩ := validateInput_cons.mp hrest
    obtain ⟨n, rfl, hn⟩ := validateField_min1_elim hq2
    split
    · exact h
    · next product hfind =>
      have hmem := findProduct_mem hfind
      have hs := h product hmem
      simp only [jsInt]
      split
      · rw [applyAndNotify_db]
        exact setStock_nonneg h (by omega)
      · split
        · split
          · exact h
          · next hlt =>
            rw [applyAndNotify_db]
            exact setStock_nonneg h (by omega)
        · exact h

theorem insertTransaction_products {db db1 : DB} {t : Txn}
    (h : insertTransaction db t = .ok db1) : db1.products = db.products := by
  unfold insertTransaction at h
  split at h
  · simp at h
  · cases h; rfl

theorem finishCreate_db (ls : Listeners) (u : Outcome StockResult)
    (ev : TxnEvent) (ta : Int) : (finishCreate ls u ev ta).db = u.db := by
  unfold finishCreate
  split
  · rfl
  · split <;> rfl

theorem createTransaction_nonneg (ls : Listeners) (db : DB) (a b c d e : JSValue)
    (h : db.nonneg) : (createTransaction ls db a b c d e).db.nonneg := by
  unfold createTransaction
  split
  · exact h
  · split
    · exact h
    · next product hfind =>
      split
      · exact h
      · next db1 hins =>
        have h1 : db1.nonneg := by
          intro p hp
          rw [insertTransaction_products hins] at hp
          exact h p hp
        rw [finishCreate_db]
        exact updateStock_nonneg ls db1 b c d h1

theorem runOp_nonneg (ls : Listeners) (db : DB) (op : Op)
    (h : db.nonneg) : (runOp ls db op).1.nonneg := by
  cases op with
  | upd a b c => exact updateStock_nonneg ls db a b c h
  | create a b c d e => exact createTransaction_nonneg ls db a b c d e h

theorem runOps_nonneg (ls : Listeners) (ops : List Op) :
    ∀ db : DB, db.nonneg → (runOps ls db ops).1.nonneg := by
  induction ops with
  | nil => intro db h; exact h
  | cons op rest ih =>
    intro db h
    exact ih (runOp ls db op).1 (runOp_nonneg ls db op h)

/-- C1: the claim states createTransaction is all-or-nothing, but the code
inserts the transaction row before calling updateStock and rolls nothing back.
At the spec's own scenario (sale of 10 against product P1 with stock 2) the
call fails with INSUFFICIENT_STOCK, the stock is unchanged, and yet a
transaction row for T2 has been persisted — refuting the claim. -/
theorem createTransaction_persists_row_on_failed_stock_update :
    (createTransaction defaultListeners stock2DB (.str "T2") (.str "P1")
        (.num 10) (.str "sale") (.str "C1")).result
      = .error (.inv "Insufficient stock. Available: 2, Requested: 10"
          "INSUFFICIENT_STOCK")
  ∧ (createTransaction defaultListeners stock2DB (.str "T2") (.str "P1")
        (.num 10) (.str "sale") (.str "C1")).db.transactions.any
      (fun u => u.transaction_id == "T2") = true
  ∧ findProduct (createTransaction defaultListeners stock2DB (.str "T2")
        (.str "P1") (.num 10) (.str "sale") (.str "C1")).db "P1"
      = findProduct stock2DB "P1" := by
  decide

/-- C3: sign rule of updateStock — purchase and restock return
oldStock + quantity, sale (when stock suffices) returns oldStock - quantity,
and any other type (return, adjustment, anything not in the trio) is rejected
with INVALID_TRANSACTION_TYPE; a successful call returns {oldStock, newStock}. -/
theorem updateStock_sign_rule (db : DB) (pid t : String) (q : Int)
    (product : Product) (hpid : pid ≠ "") (hq : 1 ≤ q)
    (hfind : findProduct db pid = some product) :
    (updateStock defaultListeners db (.str pid) (.num q) (.str "purchase")).result
        = .ok ⟨product.stock, product.stock + q⟩
  ∧ (updateStock defaultListeners db (.str pid) (.num q) (.str "restock")).result
        = .ok ⟨product.stock, product.stock + q⟩
  ∧ (q ≤ product.stock →
      (updateStock defaultListeners db (.str pid) (.num q) (.str "sale")).result
        = .ok ⟨product.stock, product.stock - q⟩)
  ∧ (t ≠ "" → t ≠ "purchase" → t ≠ "restock" → t ≠ "sale" →
      (updateStock defaultListeners db (.str pid) (.num q) (.str t)).result
        = .error (.inv ("Invalid transaction type: " ++ t)
            "INVALID_TRANSACTION_TYPE")) := by
  refine ⟨?_, ?_, ?_, ?_⟩
  · rw [updateStock_eq defaultListeners db pid "purchase" q product hpid hq
      (by decide) hfind]
    simp [applyAndNotify_default]
  · rw [updateStock_eq defaultListeners db pid "restock" q product hpid hq
      (by decide) hfind]
    simp [applyAndNotify_default]
  · intro hqs
    rw [updateStock_eq defaultListeners db pid "sale" q product hpid hq
      (by decide) hfind]
    simp [applyAndNotify_default, not_lt.mpr hqs]
  · intro ht h1 h2 h3
    rw [updateStock_eq defaultListeners db pid t q product hpid hq ht hfind]
    simp [h1, h2, h3]

/-- C3 witness: against product P1 (stock 5), a purchase of 2 returns
oldStock 5 / newStock 7, a sale of 2 returns 5 / 3, and type adjustment is
rejected with INVALID_TRANSACTION_TYPE. -/
theorem updateStock_sign_rule_witness :
    (updateStock defaultListeners sampleDB (.str "P1") (.num 2) (.str "purchase")).result
        = .ok ⟨5, 7⟩
  ∧ (updateStock defaultListeners sampleDB (.str "P1") (.num 2) (.str "sale")).result
        = .ok ⟨5, 3⟩
  ∧ (updateStock defaultListeners sampleDB (.str "P1") (.num 2) (.str "adjustment")).result
        = .error (.inv "Invalid transaction type: adjustment"
            "INVALID_TRANSACTION_TYPE") := by
  have h := updateStock_sign_rule sampleDB "P1" "adjustment" 2 sampleProduct
    (by decide) (by decide) (by decide)
  exact ⟨h.1.trans (by decide),
    (h.2.2.1 (by decide)).trans (by decide),
    (h.2.2.2 (by decide) (by decide) (by decide) (by decide)).trans (by decide)⟩

/-- C4: boundary behaviour of a sale — selling exactly the current stock S
succeeds with newStock 0 and writes stock 0; selling S + 1 fails with
INSUFFICIENT_STOCK reporting available S and requested S + 1, and the whole
outcome (store and events) is unchanged. -/
theorem sale_boundary (db : DB) (pid : String) (product : Product)
    (hpid : pid ≠ "") (hfind : findProduct db pid = some product)
    (hS : 1 ≤ product.stock) :
    (updateStock defaultListeners db (.str pid) (.num product.stock) (.str "sale")).result
        = .ok ⟨product.stock, 0⟩
  ∧ findProduct (updateStock defaultListeners db (.str pid)
        (.num product.stock) (.str "sale")).db pid = some { product with stock := 0 }
  ∧ updateStock defaultListeners db (.str pid) (.num (product.stock + 1)) (.str "sale")
      = ⟨db, [], .error (.inv ("Insufficient stock. Available: "
          ++ toString product.stock ++ ", Requested: "
          ++ toString (product.stock + 1)) "INSUFFICIENT_STOCK")⟩ := by
  have hexact := updateStock_eq defaultListeners db pid "sale" product.stock
    product hpid hS (by decide) hfind
  have hover := updateStock_eq defaultListeners db pid "sale" (product.stock + 1)
    product hpid (by omega) (by decide) hfind
  rw [if_neg (by decide), if_pos rfl, if_neg (lt_irrefl product.stock)] at hexact
  rw [if_neg (by decide), if_pos rfl,
    if_pos (by omega : product.stock < product.stock + 1)] at hover
  refine ⟨?_, ?_, ?_⟩
  · rw [hexact, applyAndNotify_default]
    simp
  · rw [hexact, applyAndNotify_db, sub_self]
    have hid := findProduct_id hfind
    have h2 := findProduct_setStock 0 hfind
    rw [hid] at h2 ⊢
    exact h2
  · rw [hover]

/-- C4 witness: against product P1 with stock 5, a sale of 5 succeeds and
leaves stock 0, and a sale of 6 fails with INSUFFICIENT_STOCK reporting
available 5, requested 6, leaving the store untouched. -/
theorem sale_boundary_witness :
    (updateStock defaultListeners sampleDB (.str "P1") (.num 5) (.str "sale")).result
        = .ok ⟨5, 0⟩
  ∧ findProduct (updateStock defaultListeners sampleDB (.str "P1") (.num 5)
        (.str "sale")).db "P1" = some ⟨"P1", "Widget", 100, 0, "X"⟩
  ∧ updateStock defaultListeners sampleDB (.str "P1") (.num 6) (.str "sale")
      = ⟨sampleDB, [], .error (.inv "Insufficient stock. Available: 5, Requested: 6"
          "INSUFFICIENT_STOCK")⟩ := by
  have h := sale_boundary sampleDB "P1" sampleProduct (by decide) (by decide)
    (by decide)
  exact ⟨h.1.trans (by decide), (h.2.1).trans (by decide), (h.2.2).trans (by decide)⟩

/-- C8: the claim says addProduct accepts price = 0 and stock = 0 and rejects
negatives; the code does the opposite on both counts because of JS falsiness
in validateInput (0 fails the required check, and a min of 0 disables the min
check), so a zero price is rejected as missing while a negative price and a
negative stock pass validation and are inserted.  The quantity >= 1 clause
does hold: quantity 0 and quantity -2 both fail with a VALIDATION_ERROR, and
a failed validation leaves the store unchanged. -/
theorem addProduct_falsy_validation_bug :
    (addProduct sampleDB (.str "P2") (.str "W") (.num 0) (.num 0) (.str "X")).result
      = .error (.inv "price is required" "VALIDATION_ERROR")
  ∧ (addProduct sampleDB (.str "P2") (.str "W") (.num 0) (.num 0) (.str "X")).db
      = sampleDB
  ∧ resultOk (addProduct sampleDB (.str "P2") (.str "W") (.num (-5)) (.num (-3))
      (.str "X")).result = true
  ∧ (updateStock defaultListeners sampleDB (.str "P1") (.num 0) (.str "sale")).result
      = .error (.inv "quantity is required" "VALIDATION_ERROR")
  ∧ (updateStock defaultListeners sampleDB (.str "P1") (.num (-2)) (.str "sale")).result
      = .error (.inv "quantity must be at least 1" "VALIDATION_ERROR") := by
  refine ⟨by decide, by decide, by decide, by decide, by decide⟩

/-- C10: getLowStockProducts treats a threshold argument of 0 (and an absent
or non-numeric one, modelled as none) as falsy and silently falls back to the
process-wide default of 10, returning the products with stock at most 10; on
a store whose only product has stock 5 the result is nonempty, not the empty
set a literal threshold of 0 would select. -/
theorem getLowStockProducts_falsy_fallback :
    (∀ db : DB,
        getLowStockProducts db (some 0) = db.products.filter (fun p => p.stock ≤ 10)
      ∧ getLowStockProducts db none = db.products.filter (fun p => p.stock ≤ 10))
  ∧ getLowStockProducts sampleDB (some 0)
      ≠ sampleDB.products.filter (fun p => p.stock ≤ 0) := by
  constructor
  · intro db
    constructor <;> rfl
  · decide

/-- C2: starting from a store in which every product's stock is non-negative,
any sequence of updateStock and createTransaction calls in which every call
returns success leaves every product's stock non-negative. -/
theorem stock_nonneg_invariant (ls : Listeners) (db : DB) (ops : List Op)
    (h0 : db.nonneg) (_hall : (runOps ls db ops).2 = true) :
    (runOps ls db ops).1.nonneg :=
  runOps_nonneg ls ops db h0

/-- C2 witness: a concrete two-operation successful run (a sale transaction
then a restock) from a non-negative store ends non-negative. -/
theorem stock_nonneg_invariant_witness :
    sampleDB.nonneg
  ∧ (runOps defaultListeners sampleDB sampleOps).2 = true
  ∧ (runOps defaultListeners sampleDB sampleOps).1.nonneg :=
  ⟨by decide, by decide,
    stock_nonneg_invariant defaultListeners sampleDB sampleOps (by decide) (by decide)⟩

/-- C5 counterexample: re-submitting transaction id T1 fails with the store's
raw ER_DUP_ENTRY duplicate-key error, not with an
InventoryNotificationError of type DUPLICATE_TRANSACTION as the claim states
(createTransaction, unlike addProduct, never maps the duplicate-key code). -/
theorem createTransaction_duplicate_raw_error :
    (createTransaction defaultListeners dupTxnDB (.str "T1") (.str "P1")
        (.num 1) (.str "sale") (.str "C1")).result = .error (.db "ER_DUP_ENTRY")
  ∧ isDupTxnErr (createTransaction defaultListeners dupTxnDB (.str "T1")
        (.str "P1") (.num 1) (.str "sale") (.str "C1")).result = false := by
  decide

/-- C5 amended: a second createTransaction with an already-existing
transactionId (otherwise valid inputs against an existing product) fails —
with the store's raw ER_DUP_ENTRY duplicate-key error, which the code does
not translate to DuplicateTransaction — and leaves all state unchanged: same
store, no events. -/
theorem createTransaction_duplicate_state_unchanged (ls : Listeners) (db : DB)
    (tid pid t cid : String) (q : Int) (product : Product)
    (htid : tid ≠ "") (hpid : pid ≠ "") (ht : t ≠ "") (hcid : cid ≠ "")
    (hq : 1 ≤ q) (hfind : findProduct db pid = some product)
    (hdup : db.transactions.any (fun u => u.transaction_id == tid) = true) :
    createTransaction ls db (.str tid) (.str pid) (.num q) (.str t) (.str cid)
      = ⟨db, [], .error (.db "ER_DUP_ENTRY")⟩ := by
  unfold createTransaction
  rw [createTransactionChecks_ok htid hpid hq ht hcid]
  simp only [jsStr, jsInt]
  rw [hfind]
  unfold insertTransaction
  simp [hdup]

/-- C5 witness for the amended claim: the duplicate T1 call against the
concrete store returns the unchanged store, no events, and ER_DUP_ENTRY. -/
theorem createTransaction_duplicate_state_unchanged_witness :
    createTransaction defaultListeners dupTxnDB (.str "T1") (.str "P1")
        (.num 2) (.str "sale") (.str "C1")
      = ⟨dupTxnDB, [], .error (.db "ER_DUP_ENTRY")⟩ :=
  createTransaction_duplicate_state_unchanged defaultListeners dupTxnDB
    "T1" "P1" "sale" "C1" 2 sampleProduct (by decide) (by decide) (by decide)
    (by decide) (by decide) (by decide) (by decide)

/-- C6: with the threshold fixed at 10, a successful updateStock emits a
lowStock notification exactly when the post-update stock is at most 10, and
the notification carries the post-update value; in particular a purchase
raising stock from 9 to 15 emits nothing, while a sale lowering stock from 12
to 8 emits a lowStock event carrying stock 8. -/
theorem lowStock_notification_iff (db : DB) (pid t : String) (q : Int)
    (product : Product) (hpid : pid ≠ "") (hq : 1 ≤ q) (ht : t ≠ "")
    (hfind : findProduct db pid = some product) :
    (∀ r : StockResult,
      (updateStock defaultListeners db (.str pid) (.num q) (.str t)).result = .ok r →
      (updateStock defaultListeners db (.str pid) (.num q) (.str t)).events =
        (if r.newStock ≤ lowStockThreshold
         then [.lowStock { product with stock := r.newStock }] else []))
  ∧ (updateStock defaultListeners stock9DB (.str "P1") (.num 6) (.str "purchase")).events = []
  ∧ (updateStock defaultListeners stock12DB (.str "P1") (.num 4) (.str "sale")).events
      = [.lowStock ⟨"P1", "Widget", 100, 8, "X"⟩] := by
  refine ⟨?_, by decide, by decide⟩
  intro r hr
  rw [updateStock_eq defaultListeners db pid t q product hpid hq ht hfind] at hr ⊢
  by_cases h1 : t = "purchase" ∨ t = "restock"
  · rw [if_pos h1, applyAndNotify_default] at hr ⊢
    simp at hr
    subst hr
    rfl
  · rw [if_neg h1] at hr ⊢
    by_cases h2 : t = "sale"
    · rw [if_pos h2] at hr ⊢
      by_cases h3 : product.stock < q
      · rw [if_pos h3] at hr
        exact absurd hr (by simp)
      · rw [if_neg h3, applyAndNotify_default] at hr ⊢
        simp at hr
        subst hr
        rfl
    · rw [if_neg h2] at hr
      exact absurd hr (by simp)

/-- C6 witness: instantiating the notification rule on a concrete sale of 2
against stock 5 (newStock 3, at most 10, so the event fires carrying 3),
together with the two scenario facts. -/
theorem lowStock_notification_iff_witness :
    (updateStock defaultListeners sampleDB (.str "P1") (.num 2) (.str "sale")).events
        = [.lowStock ⟨"P1", "Widget", 100, 3, "X"⟩]
  ∧ (updateStock defaultListeners stock9DB (.str "P1") (.num 6) (.str "purchase")).events = []
  ∧ (updateStock defaultListeners stock12DB (.str "P1") (.num 4) (.str "sale")).events
      = [.lowStock ⟨"P1", "Widget", 100, 8, "X"⟩] := by
  have h := lowStock_notification_iff sampleDB "P1" "sale" 2 sampleProduct
    (by decide) (by decide) (by decide) (by decide)
  refine ⟨?_, h.2.1, h.2.2⟩
  have h1 := h.1 ⟨5, 3⟩ (by decide)
  exact h1.trans (by decide)

/-- C7 counterexample: with a lowStock observer that raises, a sale that
crosses the threshold makes updateStock fail — the observer exception is
propagated as the operation's failure rather than isolated, refuting the
claim — even though the stock write has already happened. -/
theorem updateStock_observer_exception_not_isolated :
    resultOk (updateStock throwingListeners sampleDB (.str "P1") (.num 1)
        (.str "sale")).result = false
  ∧ (updateStock throwingListeners sampleDB (.str "P1") (.num 1) (.str "sale")).result
      = .error (.observer "observer exploded")
  ∧ findProduct (updateStock throwingListeners sampleDB (.str "P1") (.num 1)
        (.str "sale")).db "P1" = some ⟨"P1", "Widget", 100, 4, "X"⟩ := by
  decide

/-- C7 amended: an observer exception during lowStock dispatch does not undo
the already-written stock update, but it is not isolated either — it
propagates, and the triggering updateStock returns that failure instead of
success. -/
theorem updateStock_observer_exception_propagates (ls : Listeners) (db : DB)
    (pid : String) (q : Int) (product : Product) (m : String)
    (hpid : pid ≠ "") (hq : 1 ≤ q)
    (hfind : findProduct db pid = some product) (hqs : q ≤ product.stock)
    (hlow : product.stock - q ≤ lowStockThreshold)
    (hdisp : dispatch ls.lowStock { product with stock := product.stock - q }
      = .error (.observer m)) :
    (updateStock ls db (.str pid) (.num q) (.str "sale")).result
        = .error (.observer m)
  ∧ (updateStock ls db (.str pid) (.num q) (.str "sale")).db
      = setStock db product.product_id (product.stock - q) := by
  rw [updateStock_eq ls db pid "sale" q product hpid hq (by decide) hfind,
    if_neg (by decide), if_pos rfl, if_neg (not_lt.mpr hqs)]
  unfold applyAndNotify
  rw [if_pos hlow, hdisp]
  exact ⟨rfl, rfl⟩

/-- C7 witness for the amended claim: the raising observer makes a sale of 2
against stock 5 fail with the observer error while the store still records
the decremented stock. -/
theorem updateStock_observer_exception_propagates_witness :
    (updateStock throwingListeners sampleDB (.str "P1") (.num 2) (.str "sale")).result
        = .error (.observer "observer exploded")
  ∧ (updateStock throwingListeners sampleDB (.str "P1") (.num 2) (.str "sale")).db
      = setStock sampleDB "P1" 3 := by
  have h := updateStock_observer_exception_propagates throwingListeners sampleDB
    "P1" 2 sampleProduct "observer exploded" (by decide) (by decide) (by decide)
    (by decide) (by decide) (by rfl)
  exact ⟨h.1, h.2.trans (by decide)⟩

/-- C9: a successful createTransaction computes totalAmount from the
product's stored price times the requested quantity (there is no
caller-supplied price in the interface) and returns {success,
totalAmount}, with the stock decremented by the quantity for a sale. -/
theorem createTransaction_total_amount (db : DB) (tid pid cid : String)
    (q : Int) (product : Product)
    (htid : tid ≠ "") (hpid : pid ≠ "") (hcid : cid ≠ "") (hq : 1 ≤ q)
    (hfind : findProduct db pid = some product)
    (hnodup : db.transactions.any (fun u => u.transaction_id == tid) = false)
    (hstock : q ≤ product.stock) :
    (createTransaction defaultListeners db (.str tid) (.str pid) (.num q)
        (.str "sale") (.str cid)).result = .ok (product.price * q)
  ∧ findProduct (createTransaction defaultListeners db (.str tid) (.str pid)
        (.num q) (.str "sale") (.str cid)).db pid
      = some { product with stock := product.stock - q } := by
  unfold createTransaction
  rw [createTransactionChecks_ok htid hpid hq (by decide) hcid]
  simp only [jsStr, jsInt]
  simp only [hfind]
  have hins : insertTransaction db
      ⟨tid, pid, q, "sale", cid, product.price, product.price * q⟩
      = .ok { db with transactions := db.transactions
          ++ [⟨tid, pid, q, "sale", cid, product.price, product.price * q⟩] } := by
    unfold insertTransaction
    rw [if_neg (by simp [hnodup])]
  simp only [hins]
  have hfind1 : findProduct { db with transactions := db.transactions
      ++ [⟨tid, pid, q, "sale", cid, product.price, product.price * q⟩] } pid
      = some product := hfind
  have hupd := updateStock_eq defaultListeners
    { db with transactions := db.transactions
      ++ [⟨tid, pid, q, "sale", cid, product.price, product.price * q⟩] }
    pid "sale" q product hpid hq (by decide) hfind1
  rw [if_neg (by decide), if_pos rfl, if_neg (not_lt.mpr hstock),
    applyAndNotify_default] at hupd
  rw [hupd]
  constructor
  · simp [finishCreate, defaultListeners, dispatch]
  · simp only [finishCreate, defaultListeners, dispatch]
    have hid := findProduct_id hfind
    have h2 := findProduct_setStock (product.stock - q) hfind1
    rw [hid] at h2 ⊢
    exact h2

/-- C9 witness: the spec's scenario — a sale of 3 against P1 (stock 5, price
100) succeeds with totalAmount 300 and resulting stock 2. -/
theorem createTransaction_total_amount_witness :
    (createTransaction defaultListeners sampleDB (.str "T1") (.str "P1")
        (.num 3) (.str "sale") (.str "C1")).result = .ok 300
  ∧ findProduct (createTransaction defaultListeners sampleDB (.str "T1")
        (.str "P1") (.num 3) (.str "sale") (.str "C1")).db "P1"
      = some ⟨"P1", "Widget", 100, 2, "X"⟩ := by
  have h := createTransaction_total_amount sampleDB "T1" "P1" "C1" 3
    sampleProduct (by decide) (by decide) (by decide) (by decide) (by decide)
    (by decide) (by decide)
  exact ⟨h.1.trans (by decide), h.2.trans (by decide)⟩

end Inventory
